import Mathlib

/-!
Verification development for the CASA graphics template generator
(`src/design/casa_template.py` and `src/design/casa_graphics_generator.py`).

The renderer is embedded shallowly:
* Python strings are `PyStr := List Char`; `str.split(sep)` / `' '.join`
  are `splitChar` / `joinSp` with Python's exact semantics (empty pieces
  kept, `"".split(' ') = [""]`).
* PIL drawing calls become constructors of `DrawOp`; a layout produces a
  `List LayerOp` in source order, where a `draw_icon` call is kept as one
  `LayerOp.icon` node whose `expand`-sion is the list of primitive ops the
  Python function emits.
* The file system and PIL asset/font loading are an explicit environment
  `Env` (`fileExists`, `openImage`) and text measurement
  (`draw.textbbox`) is `Env.measure`.  `ImageFont.truetype` raising on a
  missing file is modelled as `Option`.
* Python `//` (floor division) is `Int.fdiv`; `scale` is an integer (the
  source's `scale: int`), so all arithmetic in the layouts
  (`int(c * s)` with integral `s`) is exact integer arithmetic.
* An exception escaping `create_event_graphic` (a font that cannot be
  resolved) makes the result `none`; the caught exceptions around
  illustration/logo loading are local skips, as in the source.
-/

namespace Casa

/-- Python strings, as lists of characters. -/
abbrev PyStr := List Char

/-- RGB color triple. -/
abbrev Color := Int × Int × Int

/-- Source `COLORS['black']` = `(26, 26, 26)` from the source. -/
def black : Color := (26, 26, 26)

/-- The exact Canva amber `(184, 146, 61)` used by every layout. -/
def amber_canva : Color := (184, 146, 61)

/-- Python floor division `//`. -/
def pydiv (a b : Int) : Int := Int.fdiv a b

/-- A resolved font: the asset path it was loaded from and its pixel size
(`ImageFont.truetype(font_path, size)`). -/
structure Font where
  path : String
  size : Int
deriving DecidableEq, Repr

/-- The ambient file system / PIL effects:
`fileExists` is `os.path.exists`, `openImage` is `Image.open` (`none`
means the open raises), and `measure` is the width
`bbox[2] - bbox[0]` of `draw.textbbox((0,0), text, font=font)`. -/
structure Env where
  fileExists : String → Bool
  openImage : String → Option String
  measure : Font → PyStr → Int

/-- Primitive PIL draw calls emitted while rendering. -/
inductive DrawOp where
  | line (x1 y1 x2 y2 : Int) (width : Int) (color : Color)
  | rect (x1 y1 x2 y2 : Int) (width : Int) (color : Color)
  | ellipseO (x1 y1 x2 y2 : Int) (width : Int) (color : Color)
  | ellipseF (x1 y1 x2 y2 : Int) (color : Color)
  | polygon (pts : List (Int × Int)) (width : Int) (color : Color)
  | text (x y : Int) (s : PyStr) (font : Font) (color : Color)
  | paste (x y w h : Int) (asset : String) (opacityPct : Nat)
deriving DecidableEq, Repr

/-- One layout-level drawing step: either a direct PIL call or a call to
`draw_icon` with its bounding-box arguments. -/
inductive LayerOp where
  | prim (op : DrawOp)
  | icon (iconType : String) (x y size : Int) (color : Color)
deriving DecidableEq, Repr

/-- Python `' '.join(words)`. -/
def joinSp : List PyStr → PyStr
  | [] => []
  | [w] => w
  | w :: ws => w ++ ' ' :: joinSp ws

/-- Python `text.split(sep)` for a one-character separator: splits at every
occurrence, keeping empty pieces; the empty string yields `[[]]`. -/
def splitChar (sep : Char) : PyStr → List PyStr
  | [] => [[]]
  | c :: cs =>
    match splitChar sep cs with
    | [] => [[]]
    | w :: ws => if c = sep then [] :: w :: ws else (c :: w) :: ws

/-- Python `text.split(' ')`. -/
def splitSp (t : PyStr) : List PyStr := splitChar ' ' t

/-- Source `title.replace('\\n', '\n')`: each literal two-character
backslash-`n` sequence becomes a real newline, scanning left to right. -/
def replaceEscapes : PyStr → PyStr
  | '\\' :: 'n' :: rest => '\n' :: replaceEscapes rest
  | c :: rest => c :: replaceEscapes rest
  | [] => []

/-- Whether the two-character sequence backslash-`n` occurs in the string. -/
def containsEsc : PyStr → Bool
  | [] => false
  | [_] => false
  | a :: b :: rest => (a == '\\' && b == 'n') || containsEsc (b :: rest)

/-- PIL `ImageFont.truetype(path, size)`: raises (`none`) when the file is
absent, otherwise the font at that pixel size. -/
def truetype (env : Env) (path : String) (size : Int) : Option Font :=
  if env.fileExists path then some ⟨path, size⟩ else none

/-- The Montserrat asset path chosen by `get_montserrat` for a weight. -/
def montserrat_path (weight : String) : String :=
  if weight = "light" then "fonts/Montserrat-Light.ttf" else "fonts/Montserrat.ttf"

/-- The Merriweather asset path chosen by `get_merriweather`. -/
def merriweather_path (italic : Bool) : String :=
  if italic then "fonts/Merriweather-Italic.ttf" else "fonts/Merriweather-Regular.ttf"

/-- Source `get_montserrat(size, weight)`: primary asset if it exists, else the
hardcoded system fallback `/System/Library/Fonts/Helvetica.ttc`. -/
def get_montserrat (env : Env) (size : Int) (weight : String) : Option Font :=
  let font_path := montserrat_path weight
  if env.fileExists font_path then truetype env font_path size
  else truetype env "/System/Library/Fonts/Helvetica.ttc" size

/-- Source `get_merriweather(size, italic)`: primary asset if it exists, else the
hardcoded system fallback Georgia. -/
def get_merriweather (env : Env) (size : Int) (italic : Bool) : Option Font :=
  let font_path := merriweather_path italic
  if env.fileExists font_path then truetype env font_path size
  else truetype env "/System/Library/Fonts/Supplemental/Georgia.ttf" size

/-- The greedy loop of `wrap_text` over the word list, carrying the current
line's words.  Mirrors the source exactly: test `' '.join(current + [word])`
against `max_width`; on overflow flush the current line (if non-empty) and
start a new line with the word; flush the final line at the end. -/
def wrap_core (env : Env) (font : Font) (max_width : Int) :
    List PyStr → List PyStr → List PyStr
  | current, [] => if current = [] then [] else [joinSp current]
  | current, word :: rest =>
    let test_line := joinSp (current ++ [word])
    if env.measure font test_line ≤ max_width then
      wrap_core env font max_width (current ++ [word]) rest
    else
      (if current = [] then [] else [joinSp current]) ++
        wrap_core env font max_width [word] rest

/-- Source `wrap_text(text, font, max_width, draw)`. -/
def wrap_text (env : Env) (text : PyStr) (font : Font) (max_width : Int) :
    List PyStr :=
  wrap_core env font max_width [] (splitSp text)

/-- Source `draw_icon(draw, icon_type, x, y, size, color)`: the fixed vector
composition per icon type; an unrecognized type draws nothing (the
`if`/`elif` chain has no `else`).  The interior calendar grid loops are
unrolled (`i = 1, 2` horizontal, `i = 1, 2, 3` vertical). -/
def draw_icon (icon_type : String) (x y size : Int) (color : Color) :
    List DrawOp :=
  let line_width := max 2 (pydiv size 12)
  if icon_type = "calendar" then
    [DrawOp.rect x (y + pydiv size 5) (x + size) (y + size) line_width color,
     DrawOp.line x (y + pydiv size 3) (x + size) (y + pydiv size 3) line_width color,
     DrawOp.line (x + pydiv size 4) y (x + pydiv size 4) (y + pydiv size 4) line_width color,
     DrawOp.line (x + pydiv (size * 3) 4) y (x + pydiv (size * 3) 4) (y + pydiv size 4) line_width color,
     DrawOp.line (x + pydiv size 8) (y + pydiv size 3 + pydiv (1 * size) 5)
       (x + size - pydiv size 8) (y + pydiv size 3 + pydiv (1 * size) 5) 1 color,
     DrawOp.line (x + pydiv size 8) (y + pydiv size 3 + pydiv (2 * size) 5)
       (x + size - pydiv size 8) (y + pydiv size 3 + pydiv (2 * size) 5) 1 color,
     DrawOp.line (x + pydiv (1 * size) 4) (y + pydiv size 3 + pydiv size 10)
       (x + pydiv (1 * size) 4) (y + size - pydiv size 10) 1 color,
     DrawOp.line (x + pydiv (2 * size) 4) (y + pydiv size 3 + pydiv size 10)
       (x + pydiv (2 * size) 4) (y + size - pydiv size 10) 1 color,
     DrawOp.line (x + pydiv (3 * size) 4) (y + pydiv size 3 + pydiv size 10)
       (x + pydiv (3 * size) 4) (y + size - pydiv size 10) 1 color]
  else if icon_type = "clock" then
    [DrawOp.ellipseO x y (x + size) (y + size) line_width color,
     DrawOp.line (x + pydiv size 2) (y + pydiv size 2)
       (x + pydiv size 2) (y + pydiv size 4) line_width color,
     DrawOp.line (x + pydiv size 2) (y + pydiv size 2)
       (x + pydiv (size * 3) 4) (y + pydiv size 2) line_width color]
  else if icon_type = "location" then
    [DrawOp.ellipseO (x + pydiv size 4) y (x + pydiv (size * 3) 4) (y + pydiv size 2)
       line_width color,
     DrawOp.ellipseF (x + pydiv size 2 - pydiv size 8) (y + pydiv size 6)
       (x + pydiv size 2 + pydiv size 8) (y + pydiv size 6 + pydiv size 4) color,
     DrawOp.polygon
       [(x + pydiv size 4, y + pydiv size 3), (x + pydiv (size * 3) 4, y + pydiv size 3),
        (x + pydiv size 2, y + size)] line_width color]
  else []

/-- Expanding one layout step into its primitive draw calls. -/
def LayerOp.expand : LayerOp → List DrawOp
  | .prim op => [op]
  | .icon t x y size c => draw_icon t x y size c

/-- The fixed logo asset path (`LOGO_PATH`). -/
def LOGO_PATH : String :=
  "../public/lovable-uploads/47301834-0831-465c-ae5e-47a978038312.png"

/-- A `try: Image.open(path) ... except: skip` block: `none` when the file
is absent or the open raises. -/
def tryOpen (env : Env) (path : String) : Option String :=
  if env.fileExists path then env.openImage path else none

/-- The guarded illustration load shared by all layouts:
`if illustration_path and os.path.exists(illustration_path): try: ...`.
Python truthiness makes the empty string skip the layer too. -/
def loadIllustration (env : Env) : Option String → Option String
  | none => none
  | some p => if p = "" then none else tryOpen env p

/-- The per-line text loop used by the layouts
(`for line in lines: draw.text((x, y), line); y += dy`). -/
def stackText (x : Int) (font : Font) (color : Color) (dy : Int) :
    Int → List PyStr → List LayerOp
  | _, [] => []
  | y, l :: ls => .prim (.text x y l font color) :: stackText x font color dy (y + dy) ls

/-- The title line list every layout derives:
`title.replace('\\n', '\n').split('\n')`. -/
def titleLinesOf (title : PyStr) : List PyStr :=
  splitChar '\n' (replaceEscapes title)

/-- Source `create_ppt_layout`: PPT 4:3 layout; coordinates are the source's
constants times the integer scale `s` (the source's `scale` argument). -/
def create_ppt_layout (env : Env) (title date time location : PyStr)
    (illustration_path : Option String) (width height scale : Int) :
    Option (List LayerOp) :=
  let s := scale
  let illust : List LayerOp :=
    match loadIllustration env illustration_path with
    | some a => [.prim (.paste (530 * s) (140 * s) (470 * s) (513 * s) a 15)]
    | none => []
  let logoOps : List LayerOp :=
    match tryOpen env LOGO_PATH with
    | some a => [.prim (.paste (457 * s) (34 * s) (110 * s) (110 * s) a 100)]
    | none => []
  match get_montserrat env (115 * s) "light", get_merriweather env (31 * s) true with
  | some title_font, some detail_font =>
    some (illust ++
      [.prim (.line (77 * s) (83 * s) (425 * s) (83 * s) (4 * s) amber_canva),
       .prim (.line (599 * s) (83 * s) (947 * s) (83 * s) (4 * s) amber_canva),
       .prim (.line (75 * s) (690 * s) (947 * s) (690 * s) (4 * s) amber_canva)] ++
      logoOps ++
      [.prim (.text (59 * s) (151 * s) (replaceEscapes title) title_font black),
       .icon "calendar" (75 * s) (440 * s) (40 * s) amber_canva,
       .prim (.text (129 * s) (444 * s) date detail_font amber_canva),
       .icon "clock" (77 * s) (499 * s) (39 * s) amber_canva,
       .prim (.text (129 * s) (500 * s) time detail_font amber_canva),
       .icon "location" (75 * s) (551 * s) (40 * s) amber_canva,
       .prim (.text (131 * s) (557 * s) location detail_font amber_canva)])
  | _, _ => none

/-- Source `create_ig_story_layout`: Instagram Story layout; `scale = width/1080`
(exact when the caller passes `width = 1080 * scale`). -/
def create_ig_story_layout (env : Env) (title date time location : PyStr)
    (illustration_path : Option String) (width height : Int) :
    Option (List LayerOp) :=
  let s := pydiv width 1080
  let illust : List LayerOp :=
    match loadIllustration env illustration_path with
    | some a => [.prim (.paste (63 * s) (750 * s) (954 * s) (1041 * s) a 15)]
    | none => []
  match get_montserrat env (175 * s) "regular", get_merriweather env (65 * s) false with
  | some title_font, some detail_font =>
    some (illust ++
      stackText (72 * s) title_font black (145 * s) (286 * s) (titleLinesOf title) ++
      [.icon "calendar" (72 * s) (807 * s) (69 * s) amber_canva,
       .prim (.text (161 * s) (798 * s) date detail_font amber_canva),
       .icon "clock" (72 * s) (974 * s) (69 * s) amber_canva,
       .prim (.text (161 * s) (960 * s) time detail_font amber_canva),
       .icon "location" (72 * s) (1122 * s) (69 * s) amber_canva] ++
      stackText (161 * s) detail_font amber_canva (70 * s) (1122 * s)
        (wrap_text env location detail_font (850 * s)))
  | _, _ => none

/-- Source `create_ig_post_layout`: Instagram Post 1:1 layout; `scale = width/1080`. -/
def create_ig_post_layout (env : Env) (title date time location : PyStr)
    (illustration_path : Option String) (width height : Int) :
    Option (List LayerOp) :=
  let s := pydiv width 1080
  let illust : List LayerOp :=
    match loadIllustration env illustration_path with
    | some a => [.prim (.paste (240 * s) (0 * s) (954 * s) (1041 * s) a 15)]
    | none => []
  let logoOps : List LayerOp :=
    match tryOpen env LOGO_PATH with
    | some a => [.prim (.paste (497 * s) (901 * s) (87 * s) (87 * s) a 100)]
    | none => []
  match get_montserrat env (140 * s) "regular", get_merriweather env (47 * s) false with
  | some title_font, some detail_font =>
    some (illust ++
      [.prim (.line (42 * s) (109 * s) (1038 * s) (109 * s) (4 * s) amber_canva),
       .prim (.line (42 * s) (940 * s) (461 * s) (940 * s) (4 * s) amber_canva),
       .prim (.line (613 * s) (940 * s) (1032 * s) (940 * s) (4 * s) amber_canva)] ++
      logoOps ++
      stackText (42 * s) title_font black (115 * s) (140 * s) (titleLinesOf title) ++
      [.icon "calendar" (42 * s) (486 * s) (52 * s) amber_canva,
       .prim (.text (109 * s) (480 * s) date detail_font amber_canva),
       .icon "clock" (42 * s) (613 * s) (52 * s) amber_canva,
       .prim (.text (109 * s) (603 * s) time detail_font amber_canva),
       .icon "location" (42 * s) (726 * s) (52 * s) amber_canva] ++
      stackText (109 * s) detail_font amber_canva (50 * s) (726 * s)
        (wrap_text env location detail_font (500 * s)))
  | _, _ => none

/-- Source `create_fb_post_layout`: Facebook Post layout; `scale = width/1200`. -/
def create_fb_post_layout (env : Env) (title date time location : PyStr)
    (illustration_path : Option String) (width height : Int) :
    Option (List LayerOp) :=
  let s := pydiv width 1200
  let illust : List LayerOp :=
    match loadIllustration env illustration_path with
    | some a => [.prim (.paste (50 * s) (20 * s) (545 * s) (595 * s) a 13)]
    | none => []
  let logoOps : List LayerOp :=
    match tryOpen env LOGO_PATH with
    | some a => [.prim (.paste (1044 * s) (512 * s) (93 * s) (93 * s) a 100)]
    | none => []
  match get_montserrat env (130 * s) "regular", get_merriweather env (34 * s) false with
  | some title_font, some detail_font =>
    some (illust ++
      [.prim (.line (63 * s) (63 * s) (1137 * s) (63 * s) (4 * s) amber_canva),
       .prim (.line (63 * s) (560 * s) (1025 * s) (560 * s) (4 * s) amber_canva)] ++
      logoOps ++
      stackText (63 * s) title_font black (125 * s) (138 * s) (titleLinesOf title) ++
      [.icon "calendar" (645 * s) (174 * s) (36 * s) amber_canva,
       .prim (.text (691 * s) (170 * s) date detail_font amber_canva),
       .icon "clock" (645 * s) (262 * s) (36 * s) amber_canva,
       .prim (.text (691 * s) (255 * s) time detail_font amber_canva),
       .icon "location" (645 * s) (339 * s) (36 * s) amber_canva] ++
      stackText (691 * s) detail_font amber_canva (38 * s) (339 * s)
        (wrap_text env location detail_font (430 * s)))
  | _, _ => none

/-- The `FORMATS` registry: format id to base pixel dimensions. -/
def FORMATS : List (String × (Int × Int)) :=
  [("ppt_4_3", (1024, 768)), ("instagram_post", (1080, 1080)),
   ("instagram_story", (1080, 1920)), ("facebook_post", (1200, 630))]

/-- Python `FORMATS.get(format_name, FORMATS['ppt_4_3'])`. -/
def FORMATS_get (name : String) : Int × Int :=
  (FORMATS.lookup name).getD (1024, 768)

/-- Source `if output_path: img.save(...)` — the file actually written, with
Python's empty-string falsiness. -/
def savedOf : Option String → Option String
  | none => none
  | some p => if p = "" then none else some p

/-- The value of one render call: canvas pixel dimensions, the layout's
draw steps, and the output file written (if any). -/
structure RenderResult where
  width : Int
  height : Int
  layers : List LayerOp
  savedFile : Option String
deriving DecidableEq, Repr

/-- All primitive draw calls of a render, in order. -/
def RenderResult.prims (r : RenderResult) : List DrawOp :=
  r.layers.flatMap LayerOp.expand

/-- Source `create_event_graphic`: resolve dimensions with fallback to `ppt_4_3`,
scale them, dispatch on the format name (default: PPT layout), and save
when an output path was supplied.  `none` means an exception escaped
(a font could not be resolved). -/
def create_event_graphic (env : Env) (title date time location : PyStr)
    (illustration_path : Option String) (format_name : String)
    (output_path : Option String) (scale : Int) : Option RenderResult :=
  let dims := FORMATS_get format_name
  let width := dims.1 * scale
  let height := dims.2 * scale
  let layout :=
    if format_name = "instagram_story" then
      create_ig_story_layout env title date time location illustration_path width height
    else if format_name = "instagram_post" then
      create_ig_post_layout env title date time location illustration_path width height
    else if format_name = "facebook_post" then
      create_fb_post_layout env title date time location illustration_path width height
    else
      create_ppt_layout env title date time location illustration_path width height scale
  layout.map (fun ops =>
    { width := width, height := height, layers := ops, savedFile := savedOf output_path })

/-- The per-format loop of `generate_complete_graphic`
(`casa_graphics_generator.py`, lines 100-124): formats not in `FORMATS`
are skipped with a warning; for the rest `create_event_graphic` runs with
output path `f'{prefix}_{format}.png'` and the default scale 2. -/
def generate_graphics_loop (env : Env) (title date time location : PyStr)
    (illustration_path : Option String) (outPre : String)
    (formats : List String) : List (String × String × Option RenderResult) :=
  formats.filterMap (fun name =>
    if (FORMATS.lookup name).isSome then
      let outputPath := outPre ++ "_" ++ name ++ ".png"
      some (name, outputPath,
        create_event_graphic env title date time location illustration_path
          name (some outputPath) 2)
    else none)

/-! ### Observation helpers and scaling maps (for stating the properties) -/

/-- Multiply every coordinate, size, stroke width and font pixel size of a
primitive draw op by `k` (colors, strings and assets unchanged). -/
def scaleDrawOp (k : Int) : DrawOp → DrawOp
  | .line x1 y1 x2 y2 w c => .line (x1 * k) (y1 * k) (x2 * k) (y2 * k) (w * k) c
  | .rect x1 y1 x2 y2 w c => .rect (x1 * k) (y1 * k) (x2 * k) (y2 * k) (w * k) c
  | .ellipseO x1 y1 x2 y2 w c => .ellipseO (x1 * k) (y1 * k) (x2 * k) (y2 * k) (w * k) c
  | .ellipseF x1 y1 x2 y2 c => .ellipseF (x1 * k) (y1 * k) (x2 * k) (y2 * k) c
  | .polygon pts w c => .polygon (pts.map (fun p => (p.1 * k, p.2 * k))) (w * k) c
  | .text x y s f c => .text (x * k) (y * k) s ⟨f.path, f.size * k⟩ c
  | .paste x y w h a o => .paste (x * k) (y * k) (w * k) (h * k) a o

/-- Multiply a layout step's placement data by `k`: primitive ops via
`scaleDrawOp`, an icon call's box origin and size directly. -/
def scaleLayerOp (k : Int) : LayerOp → LayerOp
  | .prim op => .prim (scaleDrawOp k op)
  | .icon t x y size c => .icon t (x * k) (y * k) (size * k) c

/-- Multiply a whole render's dimensions and layout placements by `k`. -/
def scaleResult (k : Int) (r : RenderResult) : RenderResult :=
  { width := r.width * k, height := r.height * k,
    layers := r.layers.map (scaleLayerOp k), savedFile := r.savedFile }

/-- The stroke width of the first outline rectangle drawn at the given
corner coordinates, if any (observation helper for the scale property). -/
def rectWidthAt (ops : List DrawOp) (x1 y1 x2 y2 : Int) : Option Int :=
  ops.findSome? fun op => match op with
    | .rect a b c d w _ => if a == x1 && b == y1 && c == x2 && d == y2 then some w else none
    | _ => none

/-- Modelled from the spec: "the original whitespace-normalized input" —
runs of spaces collapse to one and leading/trailing spaces disappear
(split on spaces, drop empty pieces, rejoin with single spaces). -/
def normalize_whitespace (t : PyStr) : PyStr :=
  joinSp ((splitSp t).filter (fun w => w ≠ []))

/-! ### Concrete inputs used by witnesses and counterexamples -/

/-- An environment where every asset exists and text width is the
character count. -/
def cenv : Env :=
  { fileExists := fun _ => true, openImage := fun _ => some "asset",
    measure := fun _ t => Int.ofNat t.length }

/-- An environment where every asset exists and text width is
`font.size * length`, i.e. measurement is exactly linear in the font
pixel size. -/
def cenvLin : Env :=
  { fileExists := fun _ => true, openImage := fun _ => some "asset",
    measure := fun f t => f.size * Int.ofNat t.length }

/-- An environment with an empty file system: nothing exists, nothing
opens. -/
def envNone : Env :=
  { fileExists := fun _ => false, openImage := fun _ => none,
    measure := fun _ _ => 0 }

/-- An environment where only the two hardcoded system fallback fonts
exist. -/
def envFallback : Env :=
  { fileExists := fun p =>
      p == "/System/Library/Fonts/Helvetica.ttc" ||
      p == "/System/Library/Fonts/Supplemental/Georgia.ttf",
    openImage := fun _ => none,
    measure := fun _ _ => 0 }

/-- An environment where everything exists except the file
`missing.png`. -/
def envNoIll : Env :=
  { fileExists := fun p => !(p == "missing.png"), openImage := fun _ => some "asset",
    measure := fun _ t => Int.ofNat t.length }

/-- Sample title containing a literal backslash-`n`. -/
def sampleTitle : PyStr := ['L', 'a', ' ', 'M', 'e', 's', 'a', '\\', 'n', 'A', 'b']

/-- Sample date text. -/
def sampleDate : PyStr := ['V', 'i', 'e', 'r', 'n', 'e', 's']

/-- Sample time text. -/
def sampleTime : PyStr := ['1', '9', ':', '0', '0']

/-- Sample location text. -/
def sampleLoc : PyStr := ['c', 'a', 's', 'a']

/-- A sample font handle. -/
def sampleFont : Font := ⟨"fonts/Merriweather-Regular.ttf", 65⟩

/-- The primitive draw ops of a PPT render of the sample event at the
given scale in the all-assets environment. -/
def primsAt (s : Int) : List DrawOp :=
  ((create_event_graphic cenv sampleTitle sampleDate sampleTime sampleLoc
      none "ppt_4_3" none s).map RenderResult.prims).getD []

/-! ### Lemmas about splitting, joining and wrapping -/

/-- Evaluating `joinSp` over a cons with a non-empty tail inserts one space. -/
theorem joinSp_cons_ne (w : PyStr) (ws : List PyStr) (h : ws ≠ []) :
    joinSp (w :: ws) = w ++ ' ' :: joinSp ws := by
  cases ws with
  | nil => exact absurd rfl h
  | cons a as => rfl

/-- The join `joinSp` distributes over append of non-empty groups. -/
theorem joinSp_append (a b : List PyStr) (ha : a ≠ []) (hb : b ≠ []) :
    joinSp (a ++ b) = joinSp a ++ ' ' :: joinSp b := by
  induction a with
  | nil => exact absurd rfl ha
  | cons x xs ih =>
    cases xs with
    | nil =>
      cases b with
      | nil => exact absurd rfl hb
      | cons y ys => simp [joinSp_cons_ne x (y :: ys) (by simp), joinSp]
    | cons z zs =>
      rw [List.cons_append, joinSp_cons_ne _ _ (by simp),
        joinSp_cons_ne x (z :: zs) (by simp), ih (by simp)]
      simp

/-- Unfolding equation of `splitChar` on a cons cell. -/
theorem splitChar_cons (sep c : Char) (cs : PyStr) :
    splitChar sep (c :: cs) =
      match splitChar sep cs with
      | [] => [[]]
      | w :: ws => if c = sep then [] :: w :: ws else (c :: w) :: ws := rfl

/-- Splitting never yields the empty list of pieces. -/
theorem splitChar_ne_nil (sep : Char) (l : PyStr) : splitChar sep l ≠ [] := by
  cases l with
  | nil => simp [splitChar]
  | cons c cs =>
    rw [splitChar_cons]
    cases h : splitChar sep cs with
    | nil => simp
    | cons w ws => by_cases hc : c = sep <;> simp [hc]

/-- No piece produced by splitting contains the separator. -/
theorem splitChar_no_sep (sep : Char) (l : PyStr) :
    ∀ p ∈ splitChar sep l, sep ∉ p := by
  induction l with
  | nil =>
    intro p hp
    simp only [splitChar, List.mem_singleton] at hp
    simp [hp]
  | cons c cs ih =>
    intro p hp
    rw [splitChar_cons] at hp
    cases h : splitChar sep cs with
    | nil => exact absurd h (splitChar_ne_nil _ _)
    | cons w ws =>
      rw [h] at hp
      rw [h] at ih
      simp only [] at hp
      by_cases hc : c = sep
      · rw [if_pos hc] at hp
        rcases List.mem_cons.mp hp with rfl | hp2
        · simp
        · exact ih p hp2
      · rw [if_neg hc] at hp
        rcases List.mem_cons.mp hp with rfl | hp2
        · intro hmem
          rcases List.mem_cons.mp hmem with h1 | h1
          · exact hc h1.symm
          · exact ih w (List.mem_cons_self _ _) h1
        · exact ih p (List.mem_cons_of_mem _ hp2)

/-- Joining the split pieces with single spaces is the identity (Python's
`' '.join(t.split(' ')) == t`). -/
theorem joinSp_splitSp (l : PyStr) : joinSp (splitSp l) = l := by
  unfold splitSp
  induction l with
  | nil => rfl
  | cons c cs ih =>
    rw [splitChar_cons]
    cases h : splitChar ' ' cs with
    | nil => exact absurd h (splitChar_ne_nil _ _)
    | cons w ws =>
      rw [h] at ih
      simp only []
      by_cases hc : c = ' '
      · rw [if_pos hc, joinSp_cons_ne _ _ (by simp), hc]
        simpa using ih
      · rw [if_neg hc]
        cases ws with
        | nil => simpa [joinSp] using congrArg (c :: ·) ih
        | cons b bs =>
          rw [joinSp_cons_ne (c :: w) (b :: bs) (by simp)]
          rw [joinSp_cons_ne w (b :: bs) (by simp)] at ih
          simpa using congrArg (c :: ·) ih

/-- The wrap loop never returns an empty line list when the current line
is non-empty. -/
theorem wrap_core_ne_nil (env : Env) (font : Font) (mw : Int) :
    ∀ (ws : List PyStr) (cur : List PyStr), cur ≠ [] →
      wrap_core env font mw cur ws ≠ [] := by
  intro ws
  induction ws with
  | nil => intro cur hc; simp [wrap_core, hc]
  | cons w rest ih =>
    intro cur hc
    simp only [wrap_core]
    split
    · exact ih _ (by simp)
    · simp [hc]

/-- Starting the wrap loop with an empty current line and at least one
word is the same as starting with that word as the current line. -/
theorem wrap_core_nil_cons (env : Env) (font : Font) (mw : Int)
    (w : PyStr) (ws : List PyStr) :
    wrap_core env font mw [] (w :: ws) = wrap_core env font mw [w] ws := by
  simp only [wrap_core]
  split <;> simp

/-- Joining the wrap loop's lines recovers the join of all pending words. -/
theorem wrap_core_join (env : Env) (font : Font) (mw : Int) :
    ∀ (ws : List PyStr) (cur : List PyStr), cur ≠ [] →
      joinSp (wrap_core env font mw cur ws) = joinSp (cur ++ ws) := by
  intro ws
  induction ws with
  | nil => intro cur hc; simp [wrap_core, hc, joinSp]
  | cons w rest ih =>
    intro cur hc
    simp only [wrap_core]
    split
    · rw [ih _ (by simp)]
      simp
    · rw [List.singleton_append,
        joinSp_cons_ne _ _ (wrap_core_ne_nil env font mw rest [w] (by simp)),
        ih [w] (by simp), ← joinSp_append cur ([w] ++ rest) hc (by simp)]
      simp

/-- Soundness invariant of the wrap loop: every produced line either fits
the budget or is a single space-free word satisfying `P`. -/
theorem wrap_core_sound (env : Env) (font : Font) (mw : Int) (P : PyStr → Prop) :
    ∀ (ws : List PyStr) (cur : List PyStr),
      (∀ w ∈ ws, P w ∧ ' ' ∉ w) →
      (cur = [] ∨ env.measure font (joinSp cur) ≤ mw ∨
        ∃ w, cur = [w] ∧ P w ∧ ' ' ∉ w) →
      ∀ line ∈ wrap_core env font mw cur ws,
        env.measure font line ≤ mw ∨ (P line ∧ ' ' ∉ line) := by
  intro ws
  induction ws with
  | nil =>
    intro cur hws hcur line hline
    simp only [wrap_core] at hline
    rcases hcur with rfl | hm | ⟨w, rfl, hPw, hsp⟩
    · simp at hline
    · split at hline
      · simp at hline
      · simp only [List.mem_singleton] at hline
        subst hline
        exact Or.inl hm
    · rw [if_neg (show ¬([w] : List PyStr) = [] by simp)] at hline
      simp only [List.mem_singleton] at hline
      subst hline
      exact Or.inr ⟨by simpa [joinSp] using hPw, by simpa [joinSp] using hsp⟩
  | cons w rest ih =>
    intro cur hws hcur line hline
    have hw : P w ∧ ' ' ∉ w := hws w (List.mem_cons_self _ _)
    have hrest : ∀ x ∈ rest, P x ∧ ' ' ∉ x :=
      fun x hx => hws x (List.mem_cons_of_mem _ hx)
    simp only [wrap_core] at hline
    split at hline
    · exact ih (cur ++ [w]) hrest (Or.inr (Or.inl (by assumption))) line hline
    · rcases List.mem_append.mp hline with hfl | htl
      · rcases hcur with rfl | hm | ⟨v, rfl, hPv, hspv⟩
        · simp at hfl
        · split at hfl
          · simp at hfl
          · simp only [List.mem_singleton] at hfl
            subst hfl
            exact Or.inl hm
        · rw [if_neg (show ¬([v] : List PyStr) = [] by simp)] at hfl
          simp only [List.mem_singleton] at hfl
          subst hfl
          exact Or.inr ⟨by simpa [joinSp] using hPv, by simpa [joinSp] using hspv⟩
      · exact ih [w] hrest (Or.inr (Or.inr ⟨w, rfl, hw⟩)) line htl

/-! ### C4, C5, C6: properties of the text wrapper -/

/-- C4: every line produced by `wrap_text` has measured width within the
budget, except that a line exceeding it is a single whole input word —
placed alone on its own line and never split mid-word. -/
theorem wrap_width_bound (env : Env) (text : PyStr) (font : Font) (mw : Int)
    (line : PyStr) (hline : line ∈ wrap_text env text font mw) :
    env.measure font line ≤ mw ∨ (line ∈ splitSp text ∧ ' ' ∉ line) := by
  unfold wrap_text at hline
  exact wrap_core_sound env font mw (· ∈ splitSp text) (splitSp text) []
    (fun w hw => ⟨hw, splitChar_no_sep ' ' text w hw⟩) (Or.inl rfl) line hline

/-- Witness for `wrap_width_bound` at a concrete wrap. -/
theorem wrap_width_bound_witness :
    (['a', 'b'] ∈ wrap_text cenv ['a', 'b', ' ', 'c'] sampleFont 2) ∧
    (cenv.measure sampleFont ['a', 'b'] ≤ 2 ∨
      (['a', 'b'] ∈ splitSp ['a', 'b', ' ', 'c'] ∧ ' ' ∉ (['a', 'b'] : PyStr))) :=
  ⟨by decide, wrap_width_bound cenv ['a', 'b', ' ', 'c'] sampleFont 2 ['a', 'b'] (by decide)⟩

/-- C5 counterexample: the empty input does not yield zero lines — Python's
`"".split(' ') == ['']` makes `wrap_text` return one (empty) line. -/
theorem wrap_empty_counterexample :
    wrap_text cenv [] sampleFont 100 = [[]] ∧
    (wrap_text cenv [] sampleFont 100).length ≠ 0 := by
  exact ⟨by decide, by decide⟩

/-- C5 (amended): the wrapper's output is a finite ordered list with at
least one line for every input; the empty input yields exactly one line,
which is the empty line (not zero lines). -/
theorem wrap_always_line (env : Env) (text : PyStr) (font : Font) (mw : Int) :
    wrap_text env text font mw ≠ [] ∧
    (text = [] → wrap_text env text font mw = [[]]) := by
  constructor
  · unfold wrap_text
    cases h : splitSp text with
    | nil => exact absurd h (splitChar_ne_nil _ _)
    | cons w ws =>
      rw [wrap_core_nil_cons]
      exact wrap_core_ne_nil env font mw ws [w] (by simp)
  · intro ht
    subst ht
    unfold wrap_text
    rw [show splitSp [] = [[]] from rfl, wrap_core_nil_cons]
    simp [wrap_core, joinSp]

/-- Witness for `wrap_always_line` at the empty input. -/
theorem wrap_always_line_witness :
    wrap_text cenv [] sampleFont 10 = [[]] :=
  (wrap_always_line cenv [] sampleFont 10).2 rfl

/-- C6 counterexample: for the input `"a  b"` (double space) everything
fits on one line and the space-joined output equals the original string,
which differs from its whitespace-normalized form `"a b"`. -/
theorem wrap_join_counterexample :
    joinSp (wrap_text cenv ['a', ' ', ' ', 'b'] sampleFont 100) = ['a', ' ', ' ', 'b'] ∧
    normalize_whitespace ['a', ' ', ' ', 'b'] = ['a', ' ', 'b'] ∧
    joinSp (wrap_text cenv ['a', ' ', ' ', 'b'] sampleFont 100) ≠
      normalize_whitespace ['a', ' ', ' ', 'b'] := by
  exact ⟨by decide, by decide, by decide⟩

/-- C6 (amended): joining the wrapper's output lines with single spaces
reproduces the original input text exactly — `split(' ')` keeps empty
words, so no whitespace normalization happens and no character is lost. -/
theorem wrap_join_exact (env : Env) (text : PyStr) (font : Font) (mw : Int) :
    joinSp (wrap_text env text font mw) = text := by
  unfold wrap_text
  cases h : splitSp text with
  | nil => exact absurd h (splitChar_ne_nil _ _)
  | cons w ws =>
    rw [wrap_core_nil_cons, wrap_core_join env font mw ws [w] (by simp),
      List.singleton_append, ← h]
    exact joinSp_splitSp text

/-! ### C2: missing illustration is a no-op -/

/-- The PPT layout only consults the illustration path through
`loadIllustration`. -/
theorem ppt_layout_load_congr (env : Env) (t d ti l : PyStr)
    (ip1 ip2 : Option String) (w h s : Int)
    (hl : loadIllustration env ip1 = loadIllustration env ip2) :
    create_ppt_layout env t d ti l ip1 w h s =
    create_ppt_layout env t d ti l ip2 w h s := by
  unfold create_ppt_layout
  rw [hl]

/-- The story layout only consults the illustration path through
`loadIllustration`. -/
theorem story_layout_load_congr (env : Env) (t d ti l : PyStr)
    (ip1 ip2 : Option String) (w h : Int)
    (hl : loadIllustration env ip1 = loadIllustration env ip2) :
    create_ig_story_layout env t d ti l ip1 w h =
    create_ig_story_layout env t d ti l ip2 w h := by
  unfold create_ig_story_layout
  rw [hl]

/-- The post layout only consults the illustration path through
`loadIllustration`. -/
theorem post_layout_load_congr (env : Env) (t d ti l : PyStr)
    (ip1 ip2 : Option String) (w h : Int)
    (hl : loadIllustration env ip1 = loadIllustration env ip2) :
    create_ig_post_layout env t d ti l ip1 w h =
    create_ig_post_layout env t d ti l ip2 w h := by
  unfold create_ig_post_layout
  rw [hl]

/-- The Facebook layout only consults the illustration path through
`loadIllustration`. -/
theorem fb_layout_load_congr (env : Env) (t d ti l : PyStr)
    (ip1 ip2 : Option String) (w h : Int)
    (hl : loadIllustration env ip1 = loadIllustration env ip2) :
    create_fb_post_layout env t d ti l ip1 w h =
    create_fb_post_layout env t d ti l ip2 w h := by
  unfold create_fb_post_layout
  rw [hl]

/-- C2: for every event data, format, scale and output path, rendering
with an illustration path naming a nonexistent or unopenable file is
identical to rendering with no illustration path; in particular the
failed load never aborts the render. -/
theorem illustration_missing_noop (env : Env) (p : String)
    (hp : env.fileExists p = false ∨ env.openImage p = none)
    (title date time location : PyStr) (fmt : String)
    (out : Option String) (scale : Int) :
    create_event_graphic env title date time location (some p) fmt out scale =
    create_event_graphic env title date time location none fmt out scale := by
  have hload : loadIllustration env (some p) = loadIllustration env none := by
    simp only [loadIllustration]
    by_cases hpe : p = ""
    · simp [hpe]
    · rw [if_neg hpe]
      unfold tryOpen
      rcases hp with h | h
      · simp [h]
      · by_cases hfe : env.fileExists p <;> simp [hfe, h]
  simp only [create_event_graphic]
  rw [story_layout_load_congr env title date time location (some p) none _ _ hload,
    post_layout_load_congr env title date time location (some p) none _ _ hload,
    fb_layout_load_congr env title date time location (some p) none _ _ hload,
    ppt_layout_load_congr env title date time location (some p) none _ _ _ hload]

/-- Witness for `illustration_missing_noop`: a file absent from the
environment. -/
theorem illustration_missing_noop_witness :
    create_event_graphic envNoIll sampleTitle sampleDate sampleTime sampleLoc
      (some "missing.png") "instagram_story" (some "o.png") 2 =
    create_event_graphic envNoIll sampleTitle sampleDate sampleTime sampleLoc
      none "instagram_story" (some "o.png") 2 :=
  illustration_missing_noop envNoIll "missing.png" (Or.inl (by decide))
    sampleTitle sampleDate sampleTime sampleLoc "instagram_story" (some "o.png") 2

/-! ### C1: unknown format identifiers -/

/-- C1 counterexample: `"unknown_format"` is not in the registry, yet the
render call succeeds — it produces a graphic with the `ppt_4_3` fallback
dimensions and still writes the output file. -/
theorem unknown_format_counterexample :
    List.lookup "unknown_format" FORMATS = none ∧
    (create_event_graphic cenv sampleTitle sampleDate sampleTime sampleLoc none
        "unknown_format" (some "event_unknown_format.png") 2).map
      (fun r => (r.width, r.height, r.savedFile)) =
      some (2048, 1536, some "event_unknown_format.png") := by
  exact ⟨by decide, by decide⟩

/-- C1 (amended): `create_event_graphic` does not fail on a format id
outside the registry — it renders exactly as for `ppt_4_3` (fallback
dimensions and layout, file written as usual), while
`generate_complete_graphic`'s loop skips the unknown format producing no
entry (and no error) for it. -/
theorem unknown_format_fallback (env : Env) (name : String)
    (h : List.lookup name FORMATS = none)
    (title date time location : PyStr) (ip : Option String)
    (out : Option String) (scale : Int) (outPre : String) :
    create_event_graphic env title date time location ip name out scale =
      create_event_graphic env title date time location ip "ppt_4_3" out scale ∧
    generate_graphics_loop env title date time location ip outPre [name] = [] := by
  have h1 : name ≠ "instagram_story" := by rintro rfl; revert h; decide
  have h2 : name ≠ "instagram_post" := by rintro rfl; revert h; decide
  have h3 : name ≠ "facebook_post" := by rintro rfl; revert h; decide
  constructor
  · unfold create_event_graphic FORMATS_get
    rw [h]
    simp only [if_neg h1, if_neg h2, if_neg h3,
      if_neg (show ¬("ppt_4_3" : String) = "instagram_story" by decide),
      if_neg (show ¬("ppt_4_3" : String) = "instagram_post" by decide),
      if_neg (show ¬("ppt_4_3" : String) = "facebook_post" by decide),
      show List.lookup ("ppt_4_3" : String) FORMATS = some ((1024 : Int), (768 : Int))
        from by decide]
    norm_num
  · unfold generate_graphics_loop
    simp [h]

/-- Witness for `unknown_format_fallback` at `"unknown_format"`. -/
theorem unknown_format_fallback_witness :
    create_event_graphic cenv sampleTitle sampleDate sampleTime sampleLoc none
        "unknown_format" none 2 =
      create_event_graphic cenv sampleTitle sampleDate sampleTime sampleLoc none
        "ppt_4_3" none 2 ∧
    generate_graphics_loop cenv sampleTitle sampleDate sampleTime sampleLoc none
        "event" ["unknown_format"] = [] :=
  unknown_format_fallback cenv "unknown_format" (by decide)
    sampleTitle sampleDate sampleTime sampleLoc none none 2 "event"

/-! ### C7: unknown icon types -/

/-- C7 counterexample: an icon type outside the fixed set is silently
ignored — `draw_icon` returns normally having drawn nothing, rather than
surfacing a fatal `InvalidIconType` error. -/
theorem icon_unknown_counterexample :
    draw_icon "star" 10 10 48 amber_canva = [] := by decide

/-- C7 (amended): for every icon type outside
`{calendar, clock, location}`, `draw_icon` silently draws nothing and
raises no error (the `if`/`elif` chain has no `else` branch). -/
theorem icon_unknown_noop (t : String) (x y size : Int) (c : Color)
    (h1 : t ≠ "calendar") (h2 : t ≠ "clock") (h3 : t ≠ "location") :
    draw_icon t x y size c = [] := by
  unfold draw_icon
  rw [if_neg h1, if_neg h2, if_neg h3]

/-- Witness for `icon_unknown_noop`. -/
theorem icon_unknown_noop_witness :
    draw_icon "star" 0 0 40 amber_canva = [] :=
  icon_unknown_noop "star" 0 0 40 amber_canva (by decide) (by decide) (by decide)

/-! ### C8: font fallback -/

/-- C8 counterexample: the font provider can fail outright — when neither
the bundled asset nor the hardcoded macOS system fallback exists,
`ImageFont.truetype` on the fallback path raises (here: `none`). -/
theorem font_fallback_counterexample :
    get_montserrat envNone 31 "regular" = none ∧
    get_merriweather envNone 31 true = none := ⟨rfl, rfl⟩

/-- C8 (amended): when the primary font asset is absent the provider falls
through to a fixed system font path at the same pixel size; this fallback
succeeds only if that system file exists — it is not guaranteed. -/
theorem font_fallback_same_size (env : Env) (size : Int) (weight : String)
    (italic : Bool) :
    (env.fileExists (montserrat_path weight) = false →
      env.fileExists "/System/Library/Fonts/Helvetica.ttc" = true →
      get_montserrat env size weight =
        some ⟨"/System/Library/Fonts/Helvetica.ttc", size⟩) ∧
    (env.fileExists (merriweather_path italic) = false →
      env.fileExists "/System/Library/Fonts/Supplemental/Georgia.ttf" = true →
      get_merriweather env size italic =
        some ⟨"/System/Library/Fonts/Supplemental/Georgia.ttf", size⟩) := by
  constructor
  · intro h1 h2
    simp [get_montserrat, truetype, h1, h2]
  · intro h1 h2
    simp [get_merriweather, truetype, h1, h2]

/-- Witness for `font_fallback_same_size` in the system-fonts-only
environment. -/
theorem font_fallback_same_size_witness :
    get_montserrat envFallback 40 "light" =
      some ⟨"/System/Library/Fonts/Helvetica.ttc", 40⟩ ∧
    get_merriweather envFallback 40 true =
      some ⟨"/System/Library/Fonts/Supplemental/Georgia.ttf", 40⟩ :=
  ⟨(font_fallback_same_size envFallback 40 "light" true).1 (by decide) (by decide),
   (font_fallback_same_size envFallback 40 "light" true).2 (by decide) (by decide)⟩

/-! ### C9: no scale validation -/

/-- C9 counterexample: a render call with scale 0 is not rejected — the
full PPT layout runs on a 0-by-0 canvas and the output file is still
written. -/
theorem scale_zero_counterexample :
    (create_event_graphic cenv sampleTitle sampleDate sampleTime sampleLoc none
        "ppt_4_3" (some "out.png") 0).map
      (fun r => (r.width, r.height, r.savedFile, r.layers.length)) =
      some (0, 0, some "out.png", 11) := by decide

/-- C9 (amended): `create_event_graphic` performs no scale validation:
with scale 0 (and fonts resolvable) the render succeeds, allocating a
0-by-0 canvas while still generating every layout draw op. -/
theorem scale_zero_no_validation (env : Env) (title date time location : PyStr)
    (out : Option String)
    (h1 : env.fileExists "fonts/Montserrat-Light.ttf" = true)
    (h2 : env.fileExists "fonts/Merriweather-Italic.ttf" = true) :
    ∃ r, create_event_graphic env title date time location none "ppt_4_3" out 0 =
        some r ∧ r.width = 0 ∧ r.height = 0 ∧ r.layers ≠ [] := by
  have hm : get_montserrat env (115 * 0) "light" =
      some ⟨"fonts/Montserrat-Light.ttf", 115 * 0⟩ := by
    simp [get_montserrat, montserrat_path, truetype, h1]
  have hw : get_merriweather env (31 * 0) true =
      some ⟨"fonts/Merriweather-Italic.ttf", 31 * 0⟩ := by
    simp [get_merriweather, merriweather_path, truetype, h2]
  have hppt : ∃ L, create_ppt_layout env title date time location none 0 0 0 =
      some L ∧ L ≠ [] := by
    simp only [create_ppt_layout]
    rw [hm, hw]
    cases hlogo : tryOpen env LOGO_PATH with
    | none => exact ⟨_, rfl, by simp [loadIllustration]⟩
    | some a => exact ⟨_, rfl, by simp [loadIllustration]⟩
  obtain ⟨L, hL, hLne⟩ := hppt
  refine ⟨⟨0, 0, L, savedOf out⟩, ?_, rfl, rfl, hLne⟩
  simp only [create_event_graphic,
    if_neg (show ¬("ppt_4_3" : String) = "instagram_story" by decide),
    if_neg (show ¬("ppt_4_3" : String) = "instagram_post" by decide),
    if_neg (show ¬("ppt_4_3" : String) = "facebook_post" by decide),
    show FORMATS_get "ppt_4_3" = ((1024 : Int), (768 : Int)) from by decide]
  norm_num [hL]

/-- Witness for `scale_zero_no_validation`. -/
theorem scale_zero_no_validation_witness :
    ∃ r, create_event_graphic cenv sampleTitle sampleDate sampleTime sampleLoc
        none "ppt_4_3" (some "o.png") 0 = some r ∧
      r.width = 0 ∧ r.height = 0 ∧ r.layers ≠ [] :=
  scale_zero_no_validation cenv sampleTitle sampleDate sampleTime sampleLoc
    (some "o.png") rfl rfl

/-! ### C10: literal backslash-n handling in titles -/

/-- Unfolding `replaceEscapes` on a cons pair that is not the escape
sequence. -/
theorem replaceEscapes_cons_ne (a b : Char) (rest : PyStr) (hab : ¬(a = '\\' ∧ b = 'n')) :
    replaceEscapes (a :: b :: rest) = a :: replaceEscapes (b :: rest) := by
  rw [replaceEscapes.eq_def]
  split
  · rename_i rest2 heq
    injection heq with h1 h2
    injection h2 with h3 h4
    exact absurd ⟨h1, h3⟩ hab
  · rename_i c2 rest2 hne heq
    injection heq with h1 h2
    subst h1
    subst h2
    rfl
  · rename_i heq
    exact absurd heq (by simp)

/-- Replacement leaves a one-character string unchanged. -/
theorem replaceEscapes_singleton (c : Char) : replaceEscapes [c] = [c] := by
  rw [replaceEscapes.eq_def]
  split
  · rename_i rest2 heq
    exact absurd heq (by simp)
  · rename_i c2 rest2 hne heq
    injection heq with h1 h2
    subst h1
    subst h2
    rfl
  · rename_i heq
    exact absurd heq (by simp)

/-- The first character after replacement is either a real newline or the
original first character. -/
theorem replaceEscapes_head (l : PyStr) :
    (replaceEscapes l).head? = some '\n' ∨ (replaceEscapes l).head? = l.head? := by
  match l with
  | [] => exact Or.inr rfl
  | [c] =>
    right
    rw [replaceEscapes_singleton]
  | a :: b :: rest =>
    by_cases hab : a = '\\' ∧ b = 'n'
    · obtain ⟨rfl, rfl⟩ := hab
      exact Or.inl rfl
    · rw [replaceEscapes_cons_ne a b rest hab]
      exact Or.inr rfl

/-- Replacement of a string containing backslash-n produces a real
newline. -/
theorem newline_mem_replaceEscapes (l : PyStr) (h : containsEsc l = true) :
    '\n' ∈ replaceEscapes l := by
  induction l using containsEsc.induct with
  | case1 => simp [containsEsc] at h
  | case2 c => simp [containsEsc] at h
  | case3 a b rest ih =>
    by_cases hab : a = '\\' ∧ b = 'n'
    · obtain ⟨rfl, rfl⟩ := hab
      rw [show replaceEscapes ('\\' :: 'n' :: rest) = '\n' :: replaceEscapes rest from rfl]
      exact List.mem_cons_self _ _
    · rw [replaceEscapes_cons_ne a b rest hab]
      refine List.mem_cons_of_mem _ (ih ?_)
      simp only [containsEsc, Bool.or_eq_true, Bool.and_eq_true, beq_iff_eq] at h
      rcases h with ⟨h1, h2⟩ | h2
      · exact absurd ⟨h1, h2⟩ hab
      · exact h2

/-- Replacement removes every backslash-n occurrence: none remains in the
result. -/
theorem containsEsc_replaceEscapes (l : PyStr) :
    containsEsc (replaceEscapes l) = false := by
  induction l using replaceEscapes.induct with
  | case1 rest ih =>
    rw [show replaceEscapes ('\\' :: 'n' :: rest) = '\n' :: replaceEscapes rest from rfl]
    cases h2 : replaceEscapes rest with
    | nil => rfl
    | cons y ys =>
      rw [h2] at ih
      simp [containsEsc, ih]
  | case2 c rest hne ih =>
    have hab : ¬(c = '\\' ∧ ∃ r1, rest = 'n' :: r1) := by
      rintro ⟨rfl, r1, rfl⟩
      exact hne r1 rfl rfl
    cases rest with
    | nil => rw [replaceEscapes_singleton]; rfl
    | cons b bs =>
      have hab2 : ¬(c = '\\' ∧ b = 'n') := by
        rintro ⟨rfl, rfl⟩
        exact hab ⟨rfl, bs, rfl⟩
      rw [replaceEscapes_cons_ne c b bs hab2]
      cases h2 : replaceEscapes (b :: bs) with
      | nil => rfl
      | cons y ys =>
        rw [h2] at ih
        have hy : ¬(c = '\\' ∧ y = 'n') := by
          rintro ⟨rfl, rfl⟩
          rcases replaceEscapes_head (b :: bs) with hh | hh <;> rw [h2] at hh
          · simp at hh
          · simp only [List.head?] at hh
            exact hab2 ⟨rfl, by injection hh with h3; exact h3.symm⟩
        simp only [containsEsc, Bool.or_eq_false_iff]
        refine ⟨?_, ih⟩
        by_cases hc : c = '\\'
        · subst hc
          simp [show y ≠ 'n' from fun hy2 => hy ⟨rfl, hy2⟩]
        · simp [hc]
  | case3 => rfl

/-- Splitting yields one more piece than there are separator
occurrences. -/
theorem splitChar_length (sep : Char) (l : PyStr) :
    (splitChar sep l).length = l.count sep + 1 := by
  induction l with
  | nil => simp [splitChar]
  | cons c cs ih =>
    rw [splitChar_cons]
    cases h : splitChar sep cs with
    | nil => exact absurd h (splitChar_ne_nil _ _)
    | cons w ws =>
      rw [h] at ih
      by_cases hc : c = sep
      · subst hc
        simp [List.count_cons, ih]
      · simp only [List.length_cons] at ih
        simp [hc, List.count_cons]
        omega

/-- When the first split piece is non-empty, its head is the head of the
string. -/
theorem splitChar_head_of_first_cons (sep : Char) (cs : PyStr) (y : Char) (ys : List Char)
    (ws : List PyStr) (h : splitChar sep cs = (y :: ys) :: ws) :
    cs.head? = some y := by
  cases cs with
  | nil => simp [splitChar] at h
  | cons d ds =>
    rw [splitChar_cons] at h
    cases h2 : splitChar sep ds with
    | nil => exact absurd h2 (splitChar_ne_nil _ _)
    | cons w2 ws2 =>
      simp only [h2] at h
      by_cases hd : d = sep
      · rw [if_pos hd] at h
        simp at h
      · rw [if_neg hd] at h
        injection h with h3 h4
        injection h3 with h5 h6
        simp [h5]

/-- Splitting on newlines cannot create a backslash-n occurrence inside a
piece when the whole string has none. -/
theorem splitChar_no_esc (l : PyStr) (h : containsEsc l = false) :
    ∀ p ∈ splitChar '\n' l, containsEsc p = false := by
  induction l with
  | nil =>
    intro p hp
    simp only [splitChar, List.mem_singleton] at hp
    simp [hp]
    rfl
  | cons c cs ih =>
    intro p hp
    have hcs : containsEsc cs = false := by
      cases cs with
      | nil => rfl
      | cons d ds =>
        simp only [containsEsc, Bool.or_eq_false_iff] at h
        exact h.2
    have ihw := ih hcs
    rw [splitChar_cons] at hp
    cases hsp : splitChar '\n' cs with
    | nil => exact absurd hsp (splitChar_ne_nil _ _)
    | cons w ws =>
      rw [hsp] at hp
      rw [hsp] at ihw
      simp only [] at hp
      by_cases hc : c = '\n'
      · rw [if_pos hc] at hp
        rcases List.mem_cons.mp hp with rfl | hp2
        · rfl
        · exact ihw p hp2
      · rw [if_neg hc] at hp
        rcases List.mem_cons.mp hp with rfl | hp2
        · cases w with
          | nil => rfl
          | cons y ys =>
            have hyw : containsEsc (y :: ys) = false := ihw (y :: ys) (List.mem_cons_self _ _)
            have hhead : cs.head? = some y := splitChar_head_of_first_cons '\n' cs y ys ws hsp
            simp only [containsEsc, Bool.or_eq_false_iff]
            refine ⟨?_, hyw⟩
            by_cases hcb : c = '\\'
            · subst hcb
              cases cs with
              | nil => simp at hhead
              | cons d ds =>
                injection hhead with h5
                subst h5
                simp only [containsEsc, Bool.or_eq_false_iff] at h
                have := h.1
                simpa using this
            · simp [hcb]
        · exact ihw p (List.mem_cons_of_mem _ hp2)

/-- C10: every layout replaces each literal backslash-n in the title by a
real newline before layout (`titleLinesOf` is the shared
`title.replace` + `split` path; the PPT layout draws `replaceEscapes
title` directly): a title containing backslash-n yields at least two
title lines, no drawn title line contains a newline or a literal
backslash-n, and the PPT title string contains a real newline and no
backslash-n. -/
theorem title_escape_newlines (title : PyStr) (h : containsEsc title = true) :
    2 ≤ (titleLinesOf title).length ∧
    (∀ line ∈ titleLinesOf title, containsEsc line = false ∧ '\n' ∉ line) ∧
    '\n' ∈ replaceEscapes title ∧ containsEsc (replaceEscapes title) = false := by
  have hmem : '\n' ∈ replaceEscapes title := newline_mem_replaceEscapes title h
  have hesc : containsEsc (replaceEscapes title) = false := containsEsc_replaceEscapes title
  refine ⟨?_, ?_, hmem, hesc⟩
  · unfold titleLinesOf
    rw [splitChar_length]
    have hpos : 0 < (replaceEscapes title).count '\n' := List.count_pos_iff.mpr hmem
    omega
  · intro line hline
    exact ⟨splitChar_no_esc (replaceEscapes title) hesc line hline,
      splitChar_no_sep '\n' (replaceEscapes title) line hline⟩

/-- Witness for `title_escape_newlines` at a concrete title. -/
theorem title_escape_newlines_witness :
    2 ≤ (titleLinesOf sampleTitle).length ∧
    (∀ line ∈ titleLinesOf sampleTitle, containsEsc line = false ∧ '\n' ∉ line) ∧
    '\n' ∈ replaceEscapes sampleTitle ∧
    containsEsc (replaceEscapes sampleTitle) = false :=
  title_escape_newlines sampleTitle (by decide)

/-! ### C3: scale linearity -/

/-- C3 counterexample: the PPT calendar icon's stroke width
(`max(2, size // 12)`) does not scale proportionally — at scale 1 it is 3
while at scale 6 it is 20, off by 2 from the predicted 3 times 6 = 18,
exceeding the 1-pixel tolerance. -/
theorem scale_linearity_counterexample :
    rectWidthAt (primsAt 1) 75 448 115 480 = some 3 ∧
    rectWidthAt (primsAt 6) 450 2688 690 2880 = some 20 ∧
    ¬ ((20 : Int) - 3 * 6 ≤ 1 ∧ 3 * 6 - (20 : Int) ≤ 1) := by
  exact ⟨by decide, by decide, by decide⟩

/-- The per-line text loop scales linearly: stacking at scaled origin,
spacing and font size equals scaling the stack. -/
theorem stackText_scale (k x : Int) (p : String) (sz : Int) (c : Color) (dy : Int) :
    ∀ (ls : List PyStr) (y : Int),
      stackText (x * k) ⟨p, sz * k⟩ c (dy * k) (y * k) ls =
        (stackText x ⟨p, sz⟩ c dy y ls).map (scaleLayerOp k) := by
  intro ls
  induction ls with
  | nil => intro y; rfl
  | cons l ls ih =>
    intro y
    simp only [stackText, List.map_cons, scaleLayerOp, scaleDrawOp, List.cons.injEq]
    refine ⟨trivial, ?_⟩
    rw [show y * k + dy * k = (y + dy) * k by ring]
    exact ih (y + dy)

/-- When measurement is linear in the font size, the wrap loop at scaled
font size and budget takes exactly the same line breaks. -/
theorem wrap_core_scale (env : Env) (k : Int) (hk : 0 < k) (p : String) (sz mw : Int)
    (hmeas : ∀ t, env.measure ⟨p, sz * k⟩ t = env.measure ⟨p, sz⟩ t * k) :
    ∀ (ws cur : List PyStr),
      wrap_core env ⟨p, sz * k⟩ (mw * k) cur ws = wrap_core env ⟨p, sz⟩ mw cur ws := by
  intro ws
  induction ws with
  | nil => intro cur; rfl
  | cons w rest ih =>
    intro cur
    simp only [wrap_core]
    have hcond : (env.measure ⟨p, sz * k⟩ (joinSp (cur ++ [w])) ≤ mw * k) ↔
        (env.measure ⟨p, sz⟩ (joinSp (cur ++ [w])) ≤ mw) := by
      rw [hmeas]
      exact mul_le_mul_right hk
    by_cases hcc : env.measure ⟨p, sz⟩ (joinSp (cur ++ [w])) ≤ mw
    · rw [if_pos (hcond.mpr hcc), if_pos hcc, ih]
    · rw [if_neg (fun hx => hcc (hcond.mp hx)), if_neg hcc, ih]

/-- When measurement is linear in the font size, `wrap_text` at scaled
font size and budget returns the same lines. -/
theorem wrap_text_scale (env : Env) (k : Int) (hk : 0 < k) (p : String)
    (sz mw : Int) (text : PyStr)
    (hmeas : ∀ t, env.measure ⟨p, sz * k⟩ t = env.measure ⟨p, sz⟩ t * k) :
    wrap_text env text ⟨p, sz * k⟩ (mw * k) = wrap_text env text ⟨p, sz⟩ mw := by
  unfold wrap_text
  rw [wrap_core_scale env k hk p sz mw hmeas]

/-- The PPT layout at integer scale `k` is the scale-1 layout with every
layout-level placement multiplied by `k`. -/
theorem ppt_layout_scale (env : Env) (k : Int) (t d ti l : PyStr)
    (ip : Option String) (w1 h1 w2 h2 : Int) :
    create_ppt_layout env t d ti l ip w2 h2 k =
      Option.map (List.map (scaleLayerOp k)) (create_ppt_layout env t d ti l ip w1 h1 1) := by
  unfold create_ppt_layout get_montserrat get_merriweather truetype
  by_cases hml : env.fileExists (montserrat_path "light") <;>
  by_cases hhel : env.fileExists "/System/Library/Fonts/Helvetica.ttc" <;>
  by_cases hmi : env.fileExists (merriweather_path true) <;>
  by_cases hgeo : env.fileExists "/System/Library/Fonts/Supplemental/Georgia.ttf" <;>
  cases hload : loadIllustration env ip <;>
  cases hlogo : tryOpen env LOGO_PATH <;>
  simp [hml, hhel, hmi, hgeo, hload, hlogo, scaleLayerOp, scaleDrawOp, mul_one]

/-- The story layout at width `1080 * k` is the scale-1 layout with every
layout-level placement multiplied by `k` (given size-linear
measurement). -/
theorem story_layout_scale (env : Env) (k : Int) (hk : 0 < k)
    (hmeas : ∀ (p : String) (sz : Int) (t : PyStr),
      env.measure ⟨p, sz * k⟩ t = env.measure ⟨p, sz⟩ t * k)
    (t d ti l : PyStr) (ip : Option String) (h1 h2 : Int) :
    create_ig_story_layout env t d ti l ip (1080 * k) h2 =
      Option.map (List.map (scaleLayerOp k))
        (create_ig_story_layout env t d ti l ip (1080 * 1) h1) := by
  unfold create_ig_story_layout get_montserrat get_merriweather truetype
  rw [show pydiv (1080 * k) 1080 = k from Int.mul_fdiv_cancel_left k (by norm_num),
      show pydiv (1080 * 1) 1080 = 1 from Int.mul_fdiv_cancel_left 1 (by norm_num)]
  by_cases hmr : env.fileExists (montserrat_path "regular") <;>
  by_cases hhel : env.fileExists "/System/Library/Fonts/Helvetica.ttc" <;>
  by_cases hme : env.fileExists (merriweather_path false) <;>
  by_cases hgeo : env.fileExists "/System/Library/Fonts/Supplemental/Georgia.ttf" <;>
  cases hload : loadIllustration env ip <;>
  simp [hmr, hhel, hme, hgeo, hload, scaleLayerOp, scaleDrawOp, mul_one,
    ← stackText_scale,
    wrap_text_scale env k hk (merriweather_path false) 65 850 l (hmeas _ 65),
    wrap_text_scale env k hk "/System/Library/Fonts/Supplemental/Georgia.ttf" 65 850 l
      (hmeas _ 65)]

/-- The post layout at width `1080 * k` is the scale-1 layout with every
layout-level placement multiplied by `k` (given size-linear
measurement). -/
theorem post_layout_scale (env : Env) (k : Int) (hk : 0 < k)
    (hmeas : ∀ (p : String) (sz : Int) (t : PyStr),
      env.measure ⟨p, sz * k⟩ t = env.measure ⟨p, sz⟩ t * k)
    (t d ti l : PyStr) (ip : Option String) (h1 h2 : Int) :
    create_ig_post_layout env t d ti l ip (1080 * k) h2 =
      Option.map (List.map (scaleLayerOp k))
        (create_ig_post_layout env t d ti l ip (1080 * 1) h1) := by
  unfold create_ig_post_layout get_montserrat get_merriweather truetype
  rw [show pydiv (1080 * k) 1080 = k from Int.mul_fdiv_cancel_left k (by norm_num),
      show pydiv (1080 * 1) 1080 = 1 from Int.mul_fdiv_cancel_left 1 (by norm_num)]
  by_cases hmr : env.fileExists (montserrat_path "regular") <;>
  by_cases hhel : env.fileExists "/System/Library/Fonts/Helvetica.ttc" <;>
  by_cases hme : env.fileExists (merriweather_path false) <;>
  by_cases hgeo : env.fileExists "/System/Library/Fonts/Supplemental/Georgia.ttf" <;>
  cases hload : loadIllustration env ip <;>
  cases hlogo : tryOpen env LOGO_PATH <;>
  simp [hmr, hhel, hme, hgeo, hload, hlogo, scaleLayerOp, scaleDrawOp, mul_one,
    ← stackText_scale,
    wrap_text_scale env k hk (merriweather_path false) 47 500 l (hmeas _ 47),
    wrap_text_scale env k hk "/System/Library/Fonts/Supplemental/Georgia.ttf" 47 500 l
      (hmeas _ 47)]

/-- The Facebook layout at width `1200 * k` is the scale-1 layout with
every layout-level placement multiplied by `k` (given size-linear
measurement). -/
theorem fb_layout_scale (env : Env) (k : Int) (hk : 0 < k)
    (hmeas : ∀ (p : String) (sz : Int) (t : PyStr),
      env.measure ⟨p, sz * k⟩ t = env.measure ⟨p, sz⟩ t * k)
    (t d ti l : PyStr) (ip : Option String) (h1 h2 : Int) :
    create_fb_post_layout env t d ti l ip (1200 * k) h2 =
      Option.map (List.map (scaleLayerOp k))
        (create_fb_post_layout env t d ti l ip (1200 * 1) h1) := by
  unfold create_fb_post_layout get_montserrat get_merriweather truetype
  rw [show pydiv (1200 * k) 1200 = k from Int.mul_fdiv_cancel_left k (by norm_num),
      show pydiv (1200 * 1) 1200 = 1 from Int.mul_fdiv_cancel_left 1 (by norm_num)]
  by_cases hmr : env.fileExists (montserrat_path "regular") <;>
  by_cases hhel : env.fileExists "/System/Library/Fonts/Helvetica.ttc" <;>
  by_cases hme : env.fileExists (merriweather_path false) <;>
  by_cases hgeo : env.fileExists "/System/Library/Fonts/Supplemental/Georgia.ttf" <;>
  cases hload : loadIllustration env ip <;>
  cases hlogo : tryOpen env LOGO_PATH <;>
  simp [hmr, hhel, hme, hgeo, hload, hlogo, scaleLayerOp, scaleDrawOp, mul_one,
    ← stackText_scale,
    wrap_text_scale env k hk (merriweather_path false) 34 430 l (hmeas _ 34),
    wrap_text_scale env k hk "/System/Library/Fonts/Supplemental/Georgia.ttf" 34 430 l
      (hmeas _ 34)]

/-- C3 (amended): for every format and every positive integer scale `k`,
with text measurement linear in font size, every layout-level placement
and size (divider endpoints and stroke widths, logo and illustration
placement, title and detail origins and spacings, font pixel sizes, and
the icon bounding boxes) in the scale-`k` render equals its scale-1 value
times `k` exactly; only the icon-internal strokes and grid offsets,
recomputed by floor division from the scaled icon size inside
`draw_icon`, can deviate beyond the 1-pixel tolerance (see the
counterexample). -/
theorem scale_linearity_layout (env : Env) (k : Int) (hk : 0 < k)
    (hmeas : ∀ (p : String) (sz : Int) (t : PyStr),
      env.measure ⟨p, sz * k⟩ t = env.measure ⟨p, sz⟩ t * k)
    (fmt : String) (title date time location : PyStr) (ip out : Option String) :
    create_event_graphic env title date time location ip fmt out k =
      Option.map (scaleResult k)
        (create_event_graphic env title date time location ip fmt out 1) := by
  simp only [create_event_graphic]
  by_cases hf1 : fmt = "instagram_story"
  · subst hf1
    simp only [if_pos rfl,
      show FORMATS_get "instagram_story" = ((1080 : Int), (1920 : Int)) from by decide]
    rw [story_layout_scale env k hk hmeas title date time location ip (1920 * 1) (1920 * k)]
    cases create_ig_story_layout env title date time location ip (1080 * 1) (1920 * 1) <;>
      simp [scaleResult, mul_one]
  · by_cases hf2 : fmt = "instagram_post"
    · subst hf2
      simp only [if_neg hf1, if_pos rfl,
        show FORMATS_get "instagram_post" = ((1080 : Int), (1080 : Int)) from by decide]
      rw [post_layout_scale env k hk hmeas title date time location ip (1080 * 1) (1080 * k)]
      cases create_ig_post_layout env title date time location ip (1080 * 1) (1080 * 1) <;>
        simp [scaleResult, mul_one]
    · by_cases hf3 : fmt = "facebook_post"
      · subst hf3
        simp only [if_neg hf1, if_neg hf2, if_pos rfl,
          show FORMATS_get "facebook_post" = ((1200 : Int), (630 : Int)) from by decide]
        rw [fb_layout_scale env k hk hmeas title date time location ip (630 * 1) (630 * k)]
        cases create_fb_post_layout env title date time location ip (1200 * 1) (630 * 1) <;>
          simp [scaleResult, mul_one]
      · simp only [if_neg hf1, if_neg hf2, if_neg hf3]
        rw [ppt_layout_scale env k title date time location ip
          ((FORMATS_get fmt).1 * 1) ((FORMATS_get fmt).2 * 1)
          ((FORMATS_get fmt).1 * k) ((FORMATS_get fmt).2 * k)]
        cases create_ppt_layout env title date time location ip
            ((FORMATS_get fmt).1 * 1) ((FORMATS_get fmt).2 * 1) 1 <;>
          simp [scaleResult, mul_one]

/-- Witness for `scale_linearity_layout` at scale 2 in the linear
environment. -/
theorem scale_linearity_layout_witness :
    create_event_graphic cenvLin sampleTitle sampleDate sampleTime sampleLoc
        none "instagram_story" none 2 =
      Option.map (scaleResult 2)
        (create_event_graphic cenvLin sampleTitle sampleDate sampleTime sampleLoc
          none "instagram_story" none 1) :=
  scale_linearity_layout cenvLin 2 (by norm_num)
    (fun p sz t => by simp only [cenvLin]; ring)
    "instagram_story" sampleTitle sampleDate sampleTime sampleLoc none none

end Casa
